import Mathlib

/-!
Shallow embedding of skiboot's `src/core/exceptions.c` trap dispatcher
(`exception_entry` and its helper `print_recoverable_mce_vm`), together with
proofs of the specification's claims about it.

The external collaborators (`prerror`, `abort`, `backtrace`, the four VM fault
resolvers, the per-CPU structure and the symbol table) are modelled as explicit
inputs/outputs: the dispatcher becomes a pure function from a register
snapshot, the CPU-local flags, the resolver bank and the symbol table to a
result record holding the verdict (abort vs. resume), the final snapshot and
CPU flags, and the diagnostic lines that were emitted.
-/

namespace Skiboot

/-- EXCEPTION_MAX_STR, the capacity of the diagnostic summary buffer
(`src/core/exceptions.c`, line 42). -/
def EXCEPTION_MAX_STR : Nat := 320

/-- Modelled from the spec: the "recoverable interrupt" indicator bit of the
mode word (MSR_RI from processor.h, which is not under src/; it is a fixed
single bit of the 64-bit mode word, here bit 1 as on the real hardware). -/
def MSR_RI : Nat := 2 ^ 1

/-- Modelled from the spec: the instruction-translation-enable bit of the mode
word (MSR_IR from processor.h, not under src/; a fixed single bit, here bit 5). -/
def MSR_IR : Nat := 2 ^ 5

/-- Modelled from the spec: the data-translation-enable bit of the mode word
(MSR_DR from processor.h, not under src/; a fixed single bit, here bit 4). -/
def MSR_DR : Nat := 2 ^ 4

/-- Modelled from the spec: the "access was a store" bit of the data-fault
status word (DSISR_ISSTORE from processor.h, not under src/; a fixed single
bit of the 32-bit status word). -/
def DSISR_ISSTORE : Nat := 2 ^ 25

/-- The captured register snapshot (`struct stack_frame`), restricted to the
fields `exception_entry` and `dump_regs` touch. All register fields are
64-bit (`dsisr`, `cr`, `xer` are 32-bit) machine words, embedded as `Nat`. -/
structure StackFrame where
  type : Nat
  cfar : Nat
  msr : Nat
  srr0 : Nat
  srr1 : Nat
  hsrr0 : Nat
  hsrr1 : Nat
  dsisr : Nat
  dar : Nat
  lr : Nat
  ctr : Nat
  cr : Nat
  xer : Nat
  gpr : List Nat
  deriving DecidableEq

/-- The CPU-local flags `exception_entry` consults (`this_cpu()->vm_local_map_inuse`)
and writes (`this_cpu()->vm_setup`). -/
structure CpuThread where
  vm_local_map_inuse : Bool
  vm_setup : Bool
  deriving DecidableEq

/-- The four externally owned storage/segment fault resolvers, as the bank of
boolean-returning services `exception_entry` delegates to:
`vm_dsi(nip, dar, store)`, `vm_dslb(nip, dar)`, `vm_isi(nip)`, `vm_islb(nip)`. -/
structure Resolvers where
  vm_dsi : Nat → Nat → Bool → Bool
  vm_dslb : Nat → Nat → Bool
  vm_isi : Nat → Bool
  vm_islb : Nat → Bool

/-- The two possible ends of a run of `exception_entry`: `Fatal` means the
`abort()` call at the `out:` label was reached (it never returns); `Resumed`
means the function returned to the trampoline. -/
inductive Verdict
  | Fatal
  | Resumed
  deriving DecidableEq

/-- The observable effect of one run of `exception_entry`: the verdict, the
final register snapshot and CPU-local flags, the summary diagnostic line
emitted by the common `prerror("%s\n", buf)` (or `none` when the run left the
switch through `goto out` without building one), the lines emitted by
`print_recoverable_mce_vm`, and whether `backtrace()` was called. -/
structure ExcResult where
  verdict : Verdict
  stack : StackFrame
  cpu : CpuThread
  summary : Option (List Char)
  mceLines : List (List Char)
  backtraced : Bool
  deriving DecidableEq

/-- Lower-case hexadecimal digit, as produced by the `%llx` format. -/
def hexDigit (n : Nat) : Char :=
  if n < 10 then Char.ofNat (48 + n) else Char.ofNat (87 + n)

/-- Fuelled most-significant-first hexadecimal digit expansion. -/
def hexAux : Nat → Nat → List Char → List Char
  | 0, _, acc => acc
  | f + 1, n, acc =>
    if n = 0 then acc else hexAux f (n / 16) (hexDigit (n % 16) :: acc)

/-- Rendering of the `%llx` format: minimal-width lower-case hexadecimal. -/
def hexVar (n : Nat) : List Char :=
  if n = 0 then ['0'] else hexAux 64 n []

/-- Rendering of the `REG` (`%016llx`) format: hexadecimal, zero-padded to
sixteen digits. -/
def hex16 (n : Nat) : List Char :=
  List.replicate (16 - (hexVar n).length) '0' ++ hexVar n

/-- Modelled from the spec: one bounded formatted write
`l += snprintf(buf + l, EXCEPTION_MAX_STR - l, ...)` (and likewise one
`snprintf_symbol` call). skiboot's own `snprintf`/`snprintf_symbol` live in
libc/ and core/utils.c, which are not under src/; per the spec, writes beyond
the buffer's capacity truncate silently (one slot is reserved for the
terminator), and the running offset advances by the characters actually
written, so the buffer content and the offset stay in sync. -/
def bufAppend (buf s : List Char) : List Char :=
  if buf.length < EXCEPTION_MAX_STR then
    buf ++ s.take (EXCEPTION_MAX_STR - buf.length - 1)
  else buf

/-- The Exception Classifier's vector-identifier test: the first `switch` of
`exception_entry` (lines 68-83), which sets `hv` to true exactly for the
hypervisor-delivered interrupt vectors. -/
def isHV (t : Nat) : Bool :=
  t == 0x500 || t == 0x980 || t == 0xe00 || t == 0xe20 || t == 0xe40 ||
    t == 0xe60 || t == 0xe80 || t == 0xea0 || t == 0xf80

/-- The Exception Classifier's faulting-address selection (lines 85-91):
`nip = hv ? stack->hsrr0 : stack->srr0`. -/
def classifyNip (s : StackFrame) : Nat :=
  if isHV s.type then s.hsrr0 else s.srr0

/-- The Exception Classifier's mode-word selection (lines 85-91):
`msr = hv ? stack->hsrr1 : stack->srr1`. -/
def classifyMsr (s : StackFrame) : Nat :=
  if isHV s.type then s.hsrr1 else s.srr1

/-- The summary line built and emitted by `print_recoverable_mce_vm`
(lines 44-57): the recoverable-MCE notice, the resolved symbol, and the mode
word, accumulated by bounded writes into a fresh `EXCEPTION_MAX_STR` buffer. -/
def print_recoverable_mce_vm (sym : Nat → List Char) (nip msr : Nat) : List Char :=
  let b := bufAppend [] ("Recoverable MCE with VM on at ".toList ++ hex16 nip ++ "   ".toList)
  let b := bufAppend b (sym nip)
  bufAppend b ("  MSR ".toList ++ hex16 msr)

/-- The `out:` label and what follows it (lines 176-184): abort when fatal;
otherwise, for a hypervisor-context trap, rewrite the supervisor pair from the
(possibly modified) `nip`/`msr` before returning. -/
def resolutionOut (hv : Bool) (nip msr : Nat) (fatal : Bool) (stack : StackFrame)
    (cpu : CpuThread) (summary : Option (List Char)) (mceLines : List (List Char))
    (bt : Bool) : ExcResult :=
  if fatal then
    ⟨Verdict.Fatal, stack, cpu, summary, mceLines, bt⟩
  else if hv then
    ⟨Verdict.Resumed, { stack with srr0 := nip, srr1 := msr }, cpu, summary, mceLines, bt⟩
  else
    ⟨Verdict.Resumed, stack, cpu, summary, mceLines, bt⟩

/-- The common tail of `exception_entry`'s second switch (lines 169-175):
append the resolved symbol and the mode word to the summary buffer, emit it,
call `backtrace()` when not fatal, and fall into the `out:` logic. -/
def finishReport (sym : Nat → List Char) (hv : Bool) (nip msr : Nat) (fatal : Bool)
    (buf : List Char) (stack : StackFrame) (cpu : CpuThread) : ExcResult :=
  let buf := bufAppend buf (sym nip)
  let buf := bufAppend buf ("  MSR ".toList ++ hex16 msr)
  resolutionOut hv nip msr fatal stack cpu (some buf) [] (!fatal)

/-- The dispatcher `exception_entry` (lines 59-185), as a pure function of the
symbol table, the resolver bank, the CPU-local flags and the snapshot. -/
def exception_entry (sym : Nat → List Char) (res : Resolvers) (cpu : CpuThread)
    (stack : StackFrame) : ExcResult :=
  let hv := isHV stack.type
  let nip := classifyNip stack
  let msr := classifyMsr stack
  let fatal := msr &&& MSR_RI == 0
  if stack.type = 0x100 then
    finishReport sym hv nip msr fatal
      (bufAppend []
        (if fatal then "Fatal System Reset at ".toList ++ hex16 nip ++ "   ".toList
         else "System Reset at ".toList ++ hex16 nip ++ "   ".toList))
      stack cpu
  else if stack.type = 0x200 then
    let fatal := fatal || cpu.vm_local_map_inuse
    if !fatal && (msr &&& (MSR_IR ||| MSR_DR) != 0) then
      resolutionOut hv nip msr false
        { stack with srr1 := stack.srr1 &&& ((2 ^ 64 - 1) ^^^ (MSR_IR ||| MSR_DR)) }
        { cpu with vm_setup := false }
        none [print_recoverable_mce_vm sym nip msr] false
    else
      finishReport sym hv nip msr true
        (bufAppend [] ("Fatal MCE at ".toList ++ hex16 nip ++ "   ".toList))
        stack cpu
  else if stack.type = 0x300 then
    if res.vm_dsi nip stack.dar (stack.dsisr &&& DSISR_ISSTORE != 0) then
      resolutionOut hv nip msr fatal stack cpu none [] false
    else
      finishReport sym hv nip msr true
        (bufAppend []
          ("Fatal ".toList ++
            (if stack.dsisr &&& DSISR_ISSTORE != 0 then "store".toList else "load".toList) ++
            " address ".toList ++ hex16 stack.dar ++ " at ".toList ++ hex16 nip ++ "   ".toList))
        stack cpu
  else if stack.type = 0x380 then
    if res.vm_dslb nip stack.dar then
      resolutionOut hv nip msr fatal stack cpu none [] false
    else
      finishReport sym hv nip msr true
        (bufAppend []
          ("Fatal load/store address ".toList ++ hex16 stack.dar ++ " at ".toList ++
            hex16 nip ++ "   ".toList))
        stack cpu
  else if stack.type = 0x400 then
    if res.vm_isi nip then
      resolutionOut hv nip msr fatal stack cpu none [] false
    else
      finishReport sym hv nip msr true
        (bufAppend [] ("Fatal ifetch at ".toList ++ hex16 nip ++ "   ".toList))
        stack cpu
  else if stack.type = 0x480 then
    if res.vm_islb nip then
      resolutionOut hv nip msr fatal stack cpu none [] false
    else
      finishReport sym hv nip msr true
        (bufAppend [] ("Fatal ifetch at ".toList ++ hex16 nip ++ "   ".toList))
        stack cpu
  else
    finishReport sym hv nip msr true
      (bufAppend []
        ("Fatal Exception 0x".toList ++ hexVar stack.type ++ " at ".toList ++
          hex16 nip ++ "  ".toList))
      stack cpu

/-- The call-site condition under which the matching delegated fault resolver
reports the fault handled (the guards of lines 128, 138, 147, 155). -/
def delegatedHandled (res : Resolvers) (s : StackFrame) : Bool :=
  if s.type = 0x300 then res.vm_dsi (classifyNip s) s.dar (s.dsisr &&& DSISR_ISSTORE != 0)
  else if s.type = 0x380 then res.vm_dslb (classifyNip s) s.dar
  else if s.type = 0x400 then res.vm_isi (classifyNip s)
  else if s.type = 0x480 then res.vm_islb (classifyNip s)
  else false

/-- An all-zero snapshot, the base for the concrete test frames. -/
def stZero : StackFrame :=
  ⟨0, 0, 0, 0, 0, 0, 0, 0, 0, 0, 0, 0, 0, []⟩

/-- A resolver bank whose four resolvers all report the fault handled. -/
def resTrue : Resolvers :=
  ⟨fun _ _ _ => true, fun _ _ => true, fun _ => true, fun _ => true⟩

/-- A resolver bank whose four resolvers all report the fault not handled. -/
def resFalse : Resolvers :=
  ⟨fun _ _ _ => false, fun _ _ => false, fun _ => false, fun _ => false⟩

/-- CPU-local flags with the non-linear-mapping flag clear and vm_setup set. -/
def cpuVmOn : CpuThread := ⟨false, true⟩

/-- A symbol table that resolves no address. -/
def symEmpty : Nat → List Char := fun _ => []

/-- A symbol table resolving every address to a 400-character name, far beyond
the diagnostic buffer's capacity. -/
def symLong : Nat → List Char := fun _ => List.replicate 400 'a'

/-! ## Helper lemmas -/

theorem resolutionOut_verdict_fatal_iff (hv : Bool) (nip msr : Nat) (f : Bool)
    (st : StackFrame) (c : CpuThread) (s : Option (List Char)) (m : List (List Char))
    (b : Bool) :
    (resolutionOut hv nip msr f st c s m b).verdict = Verdict.Fatal ↔ f = true := by
  cases f <;> cases hv <;> simp [resolutionOut]

theorem finishReport_verdict_fatal_iff (sym : Nat → List Char) (hv : Bool) (nip msr : Nat)
    (f : Bool) (buf : List Char) (st : StackFrame) (c : CpuThread) :
    (finishReport sym hv nip msr f buf st c).verdict = Verdict.Fatal ↔ f = true := by
  simp [finishReport, resolutionOut_verdict_fatal_iff]

theorem resolutionOut_fatal_frame (hv : Bool) (nip msr : Nat) (f : Bool)
    (st : StackFrame) (c : CpuThread) (s : Option (List Char)) (m : List (List Char))
    (b : Bool) (h : (resolutionOut hv nip msr f st c s m b).verdict = Verdict.Fatal) :
    (resolutionOut hv nip msr f st c s m b).stack = st ∧
      (resolutionOut hv nip msr f st c s m b).cpu = c := by
  cases f
  · cases hv <;> simp [resolutionOut] at h
  · simp [resolutionOut]

theorem finishReport_fatal_frame (sym : Nat → List Char) (hv : Bool) (nip msr : Nat)
    (f : Bool) (buf : List Char) (st : StackFrame) (c : CpuThread)
    (h : (finishReport sym hv nip msr f buf st c).verdict = Verdict.Fatal) :
    (finishReport sym hv nip msr f buf st c).stack = st ∧
      (finishReport sym hv nip msr f buf st c).cpu = c :=
  resolutionOut_fatal_frame _ _ _ _ _ _ _ _ _ h

theorem isHV_eq_true_iff (t : Nat) :
    isHV t = true ↔
      (t = 0x500 ∨ t = 0x980 ∨ t = 0xe00 ∨ t = 0xe20 ∨ t = 0xe40 ∨ t = 0xe60 ∨
        t = 0xe80 ∨ t = 0xea0 ∨ t = 0xf80) := by
  simp [isHV, Bool.or_eq_true, beq_iff_eq, or_assoc]

/-- Every hypervisor-context vector identifier falls into the default case of
the second switch, so the run is fatal and the snapshot is untouched. -/
theorem hv_always_fatal (sym : Nat → List Char) (res : Resolvers) (cpu : CpuThread)
    (stack : StackFrame) (hhv : isHV stack.type = true) :
    (exception_entry sym res cpu stack).verdict = Verdict.Fatal ∧
      (exception_entry sym res cpu stack).stack = stack := by
  rcases (isHV_eq_true_iff _).1 hhv with h | h | h | h | h | h | h | h | h <;>
    simp [exception_entry, h, finishReport, resolutionOut]

theorem resolutionOut_false_verdict (hv : Bool) (nip msr : Nat) (st : StackFrame)
    (c : CpuThread) (s : Option (List Char)) (m : List (List Char)) (b : Bool) :
    (resolutionOut hv nip msr false st c s m b).verdict = Verdict.Resumed := by
  cases hv <;> rfl

theorem finishReport_resumed_guest (sym : Nat → List Char) (nip msr : Nat) (f : Bool)
    (buf : List Char) (st : StackFrame) (c : CpuThread)
    (h : (finishReport sym false nip msr f buf st c).verdict = Verdict.Resumed) :
    (finishReport sym false nip msr f buf st c).stack = st := by
  cases f
  · rfl
  · exact absurd h (by simp [finishReport, resolutionOut])

theorem resolutionOut_resumed_guest (nip msr : Nat) (f : Bool) (st : StackFrame)
    (c : CpuThread) (s : Option (List Char)) (m : List (List Char)) (b : Bool)
    (h : (resolutionOut false nip msr f st c s m b).verdict = Verdict.Resumed) :
    (resolutionOut false nip msr f st c s m b).stack = st := by
  cases f
  · rfl
  · exact absurd h (by simp [resolutionOut])

/-- On a resumed guest/supervisor-context run, the final snapshot is the input
snapshot, except on the machine-check degrade-and-retry path where only the
translation-enable bits of srr1 are cleared. -/
theorem exception_entry_guest_stack (sym : Nat → List Char) (res : Resolvers)
    (cpu : CpuThread) (stack : StackFrame) (hb : isHV stack.type = false)
    (h : (exception_entry sym res cpu stack).verdict = Verdict.Resumed) :
    (exception_entry sym res cpu stack).stack = stack ∨
      (stack.type = 0x200 ∧
        (exception_entry sym res cpu stack).stack =
          { stack with srr1 := stack.srr1 &&& ((2 ^ 64 - 1) ^^^ (MSR_IR ||| MSR_DR)) }) := by
  revert h
  simp only [exception_entry, classifyNip, classifyMsr, hb, if_false, Bool.false_eq_true]
  split_ifs <;> intro h <;>
    first
      | exact Or.inl (finishReport_resumed_guest _ _ _ _ _ _ _ h)
      | exact Or.inl (resolutionOut_resumed_guest _ _ _ _ _ _ _ _ h)
      | exact Or.inr ⟨by assumption, resolutionOut_resumed_guest _ _ _ _ _ _ _ _ h⟩

/-! ## Claims -/

/-- Claim C1: for every trap whose identifier is not one of the four delegated
storage/segment fault vectors, if the recoverable-interrupt bit is clear in
the effective mode word read from the selected register pair, exception_entry
ends in termination (Fatal), regardless of every other snapshot field and of
the CPU-local flags. -/
theorem C1_ri_clear_fatal (sym : Nat → List Char) (res : Resolvers) (cpu : CpuThread)
    (stack : StackFrame) (h3 : stack.type ≠ 0x300) (h38 : stack.type ≠ 0x380)
    (h4 : stack.type ≠ 0x400) (h48 : stack.type ≠ 0x480)
    (hri : classifyMsr stack &&& MSR_RI = 0) :
    (exception_entry sym res cpu stack).verdict = Verdict.Fatal := by
  by_cases h1 : stack.type = 0x100
  · simp [exception_entry, h1, hri, finishReport, resolutionOut]
  · by_cases h2 : stack.type = 0x200
    · simp [exception_entry, h2, hri, finishReport, resolutionOut]
    · simp [exception_entry, h1, h2, h3, h38, h4, h48, finishReport, resolutionOut]

theorem C1_ri_clear_fatal_witness :
    ({ stZero with type := 0x777 } : StackFrame).type ≠ 0x300 ∧
    ({ stZero with type := 0x777 } : StackFrame).type ≠ 0x480 ∧
    classifyMsr { stZero with type := 0x777 } &&& MSR_RI = 0 ∧
    (exception_entry symEmpty resTrue cpuVmOn { stZero with type := 0x777 }).verdict =
      Verdict.Fatal :=
  ⟨by decide, by decide, by decide,
    C1_ri_clear_fatal symEmpty resTrue cpuVmOn { stZero with type := 0x777 }
      (by decide) (by decide) (by decide) (by decide) (by decide)⟩

/-- Claim C6: for a machine-check trap (identifier 0x200), whenever the
CPU-local non-linear-mapping flag is set, exception_entry terminates (Fatal),
for every mode word, including one with all translation-enable bits clear and
the recoverable-interrupt bit set. -/
theorem C6_mce_local_map_fatal (sym : Nat → List Char) (res : Resolvers) (cpu : CpuThread)
    (stack : StackFrame) (ht : stack.type = 0x200) (hm : cpu.vm_local_map_inuse = true) :
    (exception_entry sym res cpu stack).verdict = Verdict.Fatal := by
  simp [exception_entry, ht, hm, finishReport, resolutionOut]

theorem C6_mce_local_map_fatal_witness :
    ({ stZero with type := 0x200, srr1 := MSR_RI } : StackFrame).type = 0x200 ∧
    (⟨true, true⟩ : CpuThread).vm_local_map_inuse = true ∧
    (exception_entry symEmpty resTrue ⟨true, true⟩
      { stZero with type := 0x200, srr1 := MSR_RI }).verdict = Verdict.Fatal :=
  ⟨by decide, by decide,
    C6_mce_local_map_fatal symEmpty resTrue ⟨true, true⟩
      { stZero with type := 0x200, srr1 := MSR_RI } (by decide) (by decide)⟩

/-- Claim C10: every trap identifier the code classifies as hypervisor-context
(0x500, 0x980, 0xe00, 0xe20, 0xe40, 0xe60, 0xe80, 0xea0, 0xf80) falls into
the default "unhandled exception" case, so exception_entry always terminates
(Fatal) on it for every snapshot, and the hypervisor-context rewrite of
srr0/srr1 after the out: label is consequently never executed on any run:
the snapshot leaves every fatal run untouched, and no resumed run is
hypervisor-context. -/
theorem C10_hv_vectors_fatal (sym : Nat → List Char) (res : Resolvers) (cpu : CpuThread)
    (stack : StackFrame) (hhv : isHV stack.type = true) :
    (exception_entry sym res cpu stack).verdict = Verdict.Fatal ∧
      (exception_entry sym res cpu stack).stack = stack := by
  exact hv_always_fatal sym res cpu stack hhv

theorem C10_hv_vectors_fatal_witness :
    isHV ({ stZero with type := 0x500 } : StackFrame).type = true ∧
    (exception_entry symEmpty resTrue cpuVmOn { stZero with type := 0x500 }).verdict =
      Verdict.Fatal ∧
    (exception_entry symEmpty resTrue cpuVmOn { stZero with type := 0x500 }).stack =
      { stZero with type := 0x500 } :=
  ⟨by decide,
    (C10_hv_vectors_fatal symEmpty resTrue cpuVmOn { stZero with type := 0x500 }
      (by decide)).1,
    (C10_hv_vectors_fatal symEmpty resTrue cpuVmOn { stZero with type := 0x500 }
      (by decide)).2⟩

/-- Claim C7: once the outcome of a run of exception_entry is Fatal, the
snapshot is never mutated and no resume path executes: the final snapshot
(and the CPU-local flags) of every Fatal run equal the inputs, so the
DegradedRetry srr1 write and the hypervisor-context srr0/srr1 rewrite occur
only on non-Fatal runs. -/
theorem C7_fatal_no_mutation (sym : Nat → List Char) (res : Resolvers) (cpu : CpuThread)
    (stack : StackFrame)
    (h : (exception_entry sym res cpu stack).verdict = Verdict.Fatal) :
    (exception_entry sym res cpu stack).stack = stack ∧
      (exception_entry sym res cpu stack).cpu = cpu := by
  revert h
  simp only [exception_entry]
  split_ifs <;> intro h <;>
    first
      | exact finishReport_fatal_frame _ _ _ _ _ _ _ _ h
      | exact resolutionOut_fatal_frame _ _ _ _ _ _ _ _ _ h
      | exact absurd h (by simp [resolutionOut_false_verdict])

theorem C7_fatal_no_mutation_witness :
    (exception_entry symEmpty resTrue cpuVmOn { stZero with type := 0x777, srr1 := MSR_RI }).verdict =
      Verdict.Fatal ∧
    (exception_entry symEmpty resTrue cpuVmOn { stZero with type := 0x777, srr1 := MSR_RI }).stack =
      { stZero with type := 0x777, srr1 := MSR_RI } ∧
    (exception_entry symEmpty resTrue cpuVmOn { stZero with type := 0x777, srr1 := MSR_RI }).cpu =
      cpuVmOn :=
  ⟨by decide,
    (C7_fatal_no_mutation symEmpty resTrue cpuVmOn
      { stZero with type := 0x777, srr1 := MSR_RI } (by decide)).1,
    (C7_fatal_no_mutation symEmpty resTrue cpuVmOn
      { stZero with type := 0x777, srr1 := MSR_RI } (by decide)).2⟩

/-- Claim C5: on every resume of a hypervisor-context trap, the snapshot's
supervisor pair srr0/srr1 is rewritten with the (possibly modified) faulting
address and mode word taken from the hypervisor pair; on every resume of a
guest/supervisor-context trap, exception_entry modifies neither the
hypervisor pair nor the supervisor pair, except the DegradedRetry clearing of
the translation-enable bits in srr1. -/
theorem C5_resume_pair_rewrite (sym : Nat → List Char) (res : Resolvers) (cpu : CpuThread)
    (stack : StackFrame)
    (h : (exception_entry sym res cpu stack).verdict = Verdict.Resumed) :
    (isHV stack.type = true →
      (exception_entry sym res cpu stack).stack.srr0 = stack.hsrr0 ∧
      (exception_entry sym res cpu stack).stack.srr1 = stack.hsrr1 ∧
      (exception_entry sym res cpu stack).stack.hsrr0 = stack.hsrr0 ∧
      (exception_entry sym res cpu stack).stack.hsrr1 = stack.hsrr1) ∧
    (isHV stack.type = false →
      (exception_entry sym res cpu stack).stack.hsrr0 = stack.hsrr0 ∧
      (exception_entry sym res cpu stack).stack.hsrr1 = stack.hsrr1 ∧
      (exception_entry sym res cpu stack).stack.srr0 = stack.srr0 ∧
      ((exception_entry sym res cpu stack).stack.srr1 = stack.srr1 ∨
        (stack.type = 0x200 ∧
          (exception_entry sym res cpu stack).stack.srr1 =
            stack.srr1 &&& ((2 ^ 64 - 1) ^^^ (MSR_IR ||| MSR_DR))))) := by
  cases hb : isHV stack.type
  · refine ⟨fun hc => absurd hc (by decide), fun _ => ?_⟩
    rcases exception_entry_guest_stack sym res cpu stack hb h with heq | ⟨ht, heq⟩
    · rw [heq]
      exact ⟨rfl, rfl, rfl, Or.inl rfl⟩
    · rw [heq]
      exact ⟨rfl, rfl, rfl, Or.inr ⟨ht, rfl⟩⟩
  · have hf := (hv_always_fatal sym res cpu stack hb).1
    rw [hf] at h
    exact absurd h (by decide)

theorem C5_resume_pair_rewrite_witness :
    (exception_entry symEmpty resTrue cpuVmOn { stZero with type := 0x100, srr1 := MSR_RI }).verdict =
      Verdict.Resumed ∧
    isHV ({ stZero with type := 0x100 } : StackFrame).type = false ∧
    (exception_entry symEmpty resTrue cpuVmOn { stZero with type := 0x100, srr1 := MSR_RI }).stack.srr0 =
      ({ stZero with type := 0x100, srr1 := MSR_RI } : StackFrame).srr0 :=
  ⟨by decide, by decide,
    ((C5_resume_pair_rewrite symEmpty resTrue cpuVmOn
      { stZero with type := 0x100, srr1 := MSR_RI } (by decide)).2 (by decide)).2.2.1⟩

/-- Clearing the translation-enable bits with `&= ~(MSR_IR|MSR_DR)` leaves
every bit of a 64-bit word unchanged except bits 4 and 5, which become 0. -/
theorem clear_translation_testBit (x : Nat) (hx : x < 2 ^ 64) (i : Nat) :
    (x &&& ((2 ^ 64 - 1) ^^^ (MSR_IR ||| MSR_DR))).testBit i =
      (x.testBit i && !(i == 4 || i == 5)) := by
  rcases Nat.lt_or_ge i 64 with h64 | h64
  · have t5 : Nat.testBit (2 ^ 5) i = decide (5 = i) := Nat.testBit_two_pow
    have t4 : Nat.testBit (2 ^ 4) i = decide (4 = i) := Nat.testBit_two_pow
    simp only [MSR_IR, MSR_DR, Nat.testBit_land, Nat.testBit_xor, Nat.testBit_lor,
      Nat.testBit_two_pow_sub_one, t5, t4]
    by_cases h4 : i = 4
    · subst h4; simp
    · by_cases h5 : i = 5
      · subst h5; simp
      · simp [h64, Ne.symm h4, Ne.symm h5, h4, h5]
  · have hx0 : x.testBit i = false :=
      Nat.testBit_eq_false_of_lt
        (lt_of_lt_of_le hx (Nat.pow_le_pow_right (by norm_num) h64))
    simp [Nat.testBit_land, hx0]

/-- Claim C2: for a machine-check trap where the recoverable-interrupt bit is
set, the CPU-local non-linear-mapping flag is clear, and at least one
translation-enable bit is set in the mode word, exception_entry emits exactly
one recoverable-MCE diagnostic (and no summary line), leaves srr0 unchanged,
clears exactly the translation-enable bits in the snapshot's srr1, clears the
CPU-local vm_setup flag, and resumes without terminating. -/
theorem C2_mce_degraded_retry (sym : Nat → List Char) (res : Resolvers) (cpu : CpuThread)
    (stack : StackFrame) (ht : stack.type = 0x200) (hmap : cpu.vm_local_map_inuse = false)
    (hri : stack.srr1 &&& MSR_RI ≠ 0)
    (htr : stack.srr1 &&& (MSR_IR ||| MSR_DR) ≠ 0)
    (hw : stack.srr1 < 2 ^ 64) :
    (exception_entry sym res cpu stack).verdict = Verdict.Resumed ∧
    (exception_entry sym res cpu stack).mceLines =
      [print_recoverable_mce_vm sym stack.srr0 stack.srr1] ∧
    (exception_entry sym res cpu stack).summary = none ∧
    (exception_entry sym res cpu stack).stack.srr0 = stack.srr0 ∧
    (exception_entry sym res cpu stack).cpu.vm_setup = false ∧
    (∀ i, (exception_entry sym res cpu stack).stack.srr1.testBit i =
      (stack.srr1.testBit i && !(i == 4 || i == 5))) := by
  have hb : isHV stack.type = false := by rw [ht]; decide
  have hnip : classifyNip stack = stack.srr0 := by simp [classifyNip, hb]
  have hmsr : classifyMsr stack = stack.srr1 := by simp [classifyMsr, hb]
  have hf : (stack.srr1 &&& MSR_RI == 0) = false := beq_eq_false_iff_ne.2 hri
  have htb : (stack.srr1 &&& (MSR_IR ||| MSR_DR) != 0) = true := by
    simp [bne, hf, beq_eq_false_iff_ne.2 htr]
  have hrun : exception_entry sym res cpu stack =
      resolutionOut false stack.srr0 stack.srr1 false
        { stack with srr1 := stack.srr1 &&& ((2 ^ 64 - 1) ^^^ (MSR_IR ||| MSR_DR)) }
        { cpu with vm_setup := false }
        none [print_recoverable_mce_vm sym stack.srr0 stack.srr1] false := by
    simp [exception_entry, ht, isHV, hnip, hmsr, hf, htb, hmap]
  rw [hrun]
  exact ⟨rfl, rfl, rfl, rfl, rfl, fun i => clear_translation_testBit stack.srr1 hw i⟩

theorem C2_mce_degraded_retry_witness :
    ({ stZero with type := 0x200, srr1 := MSR_RI + MSR_IR } : StackFrame).srr1 &&& MSR_RI ≠ 0 ∧
    ({ stZero with type := 0x200, srr1 := MSR_RI + MSR_IR } : StackFrame).srr1 &&&
      (MSR_IR ||| MSR_DR) ≠ 0 ∧
    (exception_entry symEmpty resTrue cpuVmOn
      { stZero with type := 0x200, srr1 := MSR_RI + MSR_IR }).verdict = Verdict.Resumed ∧
    (exception_entry symEmpty resTrue cpuVmOn
      { stZero with type := 0x200, srr1 := MSR_RI + MSR_IR }).stack.srr1.testBit 5 = false :=
  ⟨by decide, by decide,
    (C2_mce_degraded_retry symEmpty resTrue cpuVmOn
      { stZero with type := 0x200, srr1 := MSR_RI + MSR_IR }
      (by decide) (by decide) (by decide) (by decide) (by decide)).1,
    by
      rw [(C2_mce_degraded_retry symEmpty resTrue cpuVmOn
        { stZero with type := 0x200, srr1 := MSR_RI + MSR_IR }
        (by decide) (by decide) (by decide) (by decide) (by decide)).2.2.2.2.2 5]
      decide⟩

theorem resolutionOut_summary (hv : Bool) (nip msr : Nat) (f : Bool) (st : StackFrame)
    (c : CpuThread) (s : Option (List Char)) (m : List (List Char)) (b : Bool) :
    (resolutionOut hv nip msr f st c s m b).summary = s := by
  cases f <;> cases hv <;> rfl

theorem resolutionOut_mceLines (hv : Bool) (nip msr : Nat) (f : Bool) (st : StackFrame)
    (c : CpuThread) (s : Option (List Char)) (m : List (List Char)) (b : Bool) :
    (resolutionOut hv nip msr f st c s m b).mceLines = m := by
  cases f <;> cases hv <;> rfl

theorem resolutionOut_stack_guest (nip msr : Nat) (f : Bool) (st : StackFrame)
    (c : CpuThread) (s : Option (List Char)) (m : List (List Char)) (b : Bool) :
    (resolutionOut false nip msr f st c s m b).stack = st := by
  cases f <;> rfl

/-- A delegated storage/segment fault whose resolver reports it handled leaves
the second switch through `goto out` with nothing emitted and the snapshot
untouched; the pending `fatal` flag (set iff MSR_RI was clear in srr1) is the
only thing that decides between abort and resume. -/
theorem delegated_handled_run (sym : Nat → List Char) (res : Resolvers) (cpu : CpuThread)
    (stack : StackFrame)
    (ht : stack.type = 0x300 ∨ stack.type = 0x380 ∨ stack.type = 0x400 ∨ stack.type = 0x480)
    (hh : delegatedHandled res stack = true) :
    exception_entry sym res cpu stack =
      resolutionOut false (classifyNip stack) stack.srr1 (stack.srr1 &&& MSR_RI == 0)
        stack cpu none [] false := by
  have hb : isHV stack.type = false := by
    rcases ht with h | h | h | h <;> rw [h] <;> decide
  have hmsr : classifyMsr stack = stack.srr1 := by simp [classifyMsr, hb]
  rcases ht with h | h | h | h <;>
    simp [delegatedHandled, h] at hh <;>
    simp [exception_entry, h, isHV, hmsr, hh]

/-- Claim C3 counterexample: with the data-storage resolver reporting the
fault handled but the recoverable-interrupt bit clear in srr1, the run of
exception_entry still ends in termination, contradicting the claim that a
handled delegated fault never produces a Fatal verdict even when the
recoverable-interrupt bit is clear. -/
theorem C3_counterexample :
    delegatedHandled resTrue { stZero with type := 0x300 } = true ∧
    ({ stZero with type := 0x300 } : StackFrame).srr1 &&& MSR_RI = 0 ∧
    (exception_entry symEmpty resTrue cpuVmOn { stZero with type := 0x300 }).verdict =
      Verdict.Fatal :=
  ⟨by decide, by decide, by decide⟩

/-- Claim C3 as amended: for every storage/segment fault trap (0x300, 0x380,
0x400, 0x480) whose matching delegated fault resolver returns "handled",
exception_entry emits no diagnostic for that fault (no summary line, no MCE
notice) and leaves the snapshot untouched; and provided the
recoverable-interrupt bit is set in srr1, it does not terminate. -/
theorem C3_amended_delegated_handled (sym : Nat → List Char) (res : Resolvers)
    (cpu : CpuThread) (stack : StackFrame)
    (ht : stack.type = 0x300 ∨ stack.type = 0x380 ∨ stack.type = 0x400 ∨ stack.type = 0x480)
    (hh : delegatedHandled res stack = true) :
    (exception_entry sym res cpu stack).summary = none ∧
    (exception_entry sym res cpu stack).mceLines = [] ∧
    (exception_entry sym res cpu stack).stack = stack ∧
    (stack.srr1 &&& MSR_RI ≠ 0 →
      (exception_entry sym res cpu stack).verdict = Verdict.Resumed) := by
  rw [delegated_handled_run sym res cpu stack ht hh]
  refine ⟨resolutionOut_summary _ _ _ _ _ _ _ _ _, resolutionOut_mceLines _ _ _ _ _ _ _ _ _,
    resolutionOut_stack_guest _ _ _ _ _ _ _ _, fun hri => ?_⟩
  rw [beq_eq_false_iff_ne.2 hri]
  exact resolutionOut_false_verdict _ _ _ _ _ _ _ _

theorem C3_amended_delegated_handled_witness :
    delegatedHandled resTrue { stZero with type := 0x300, srr1 := MSR_RI } = true ∧
    ({ stZero with type := 0x300, srr1 := MSR_RI } : StackFrame).srr1 &&& MSR_RI ≠ 0 ∧
    (exception_entry symEmpty resTrue cpuVmOn
      { stZero with type := 0x300, srr1 := MSR_RI }).summary = none ∧
    (exception_entry symEmpty resTrue cpuVmOn
      { stZero with type := 0x300, srr1 := MSR_RI }).verdict = Verdict.Resumed :=
  ⟨by decide, by decide,
    (C3_amended_delegated_handled symEmpty resTrue cpuVmOn
      { stZero with type := 0x300, srr1 := MSR_RI } (Or.inl (by decide)) (by decide)).1,
    (C3_amended_delegated_handled symEmpty resTrue cpuVmOn
      { stZero with type := 0x300, srr1 := MSR_RI } (Or.inl (by decide)) (by decide)).2.2.2
      (by decide)⟩

/-- A guest-context test frame whose supervisor and hypervisor pairs differ:
the supervisor pair has the recoverable-interrupt bit set, the hypervisor
pair has it clear. -/
def stC4 : StackFrame :=
  { stZero with type := 0x100, srr0 := 0x10, hsrr0 := 0x20, srr1 := MSR_RI, hsrr1 := 0 }

/-- Claim C4 counterexample: the classifier does not treat the reset (0x100)
and machine-check (0x200) identifiers as hypervisor-context: it reads the
faulting address from srr0, not hsrr0, and a reset whose hypervisor-pair mode
word has the recoverable-interrupt bit clear still resumes, because the mode
word actually consulted is srr1. -/
theorem C4_counterexample :
    isHV 0x100 = false ∧ isHV 0x200 = false ∧
    classifyNip stC4 = stC4.srr0 ∧ stC4.srr0 ≠ stC4.hsrr0 ∧
    stC4.hsrr1 &&& MSR_RI = 0 ∧
    (exception_entry symEmpty resTrue cpuVmOn stC4).verdict = Verdict.Resumed :=
  ⟨by decide, by decide, by decide, by decide, by decide, by decide⟩

/-- Claim C4 as amended: the classifier treats exactly the hypervisor-delivered
interrupt vectors 0x500, 0x980, 0xe00, 0xe20, 0xe40, 0xe60, 0xe80, 0xea0 and
0xf80 as hypervisor-context traps, reading the faulting address and mode word
from the hypervisor pair hsrr0/hsrr1, and every other identifier, including
reset (0x100) and machine check (0x200), as guest/supervisor-context, reading
from srr0/srr1. -/
theorem C4_amended_classifier :
    (∀ t : Nat, isHV t = true ↔
      (t = 0x500 ∨ t = 0x980 ∨ t = 0xe00 ∨ t = 0xe20 ∨ t = 0xe40 ∨ t = 0xe60 ∨
        t = 0xe80 ∨ t = 0xea0 ∨ t = 0xf80)) ∧
    (∀ s : StackFrame,
      (isHV s.type = true → classifyNip s = s.hsrr0 ∧ classifyMsr s = s.hsrr1) ∧
      (isHV s.type = false → classifyNip s = s.srr0 ∧ classifyMsr s = s.srr1)) := by
  refine ⟨isHV_eq_true_iff, fun s => ⟨fun h => ?_, fun h => ?_⟩⟩
  · simp [classifyNip, classifyMsr, h]
  · simp [classifyNip, classifyMsr, h]

/-- A hypervisor-context test frame with distinct register pairs. -/
def stHV : StackFrame :=
  { stZero with type := 0x500, srr0 := 1, srr1 := 2, hsrr0 := 5, hsrr1 := 7 }

theorem C4_amended_classifier_witness :
    isHV stHV.type = true ∧ classifyNip stHV = stHV.hsrr0 ∧ classifyMsr stHV = stHV.hsrr1 ∧
    isHV 0x500 = true :=
  ⟨by decide, ((C4_amended_classifier.2 stHV).1 (by decide)).1,
    ((C4_amended_classifier.2 stHV).1 (by decide)).2,
    (C4_amended_classifier.1 0x500).2 (Or.inl rfl)⟩

theorem bufAppend_length_lt (buf s : List Char) (h : buf.length < EXCEPTION_MAX_STR) :
    (bufAppend buf s).length < EXCEPTION_MAX_STR := by
  have htake := List.length_take_le (EXCEPTION_MAX_STR - buf.length - 1) s
  simp only [bufAppend, if_pos h, List.length_append]
  omega

theorem bufAppend_nil_length (s : List Char) :
    (bufAppend [] s).length < EXCEPTION_MAX_STR :=
  bufAppend_length_lt [] s (by decide)

theorem print_mce_length (sym : Nat → List Char) (nip msr : Nat) :
    (print_recoverable_mce_vm sym nip msr).length < EXCEPTION_MAX_STR :=
  bufAppend_length_lt _ _ (bufAppend_length_lt _ _ (bufAppend_nil_length _))

theorem finishReport_summary_eq (sym : Nat → List Char) (hv : Bool) (nip msr : Nat)
    (f : Bool) (buf : List Char) (st : StackFrame) (c : CpuThread) :
    (finishReport sym hv nip msr f buf st c).summary =
      some (bufAppend (bufAppend buf (sym nip)) ("  MSR ".toList ++ hex16 msr)) := by
  simp only [finishReport, resolutionOut_summary]

theorem finishReport_summary_getD_length (sym : Nat → List Char) (hv : Bool) (nip msr : Nat)
    (f : Bool) (buf : List Char) (st : StackFrame) (c : CpuThread)
    (h : buf.length < EXCEPTION_MAX_STR) :
    ((finishReport sym hv nip msr f buf st c).summary.getD []).length < EXCEPTION_MAX_STR := by
  rw [finishReport_summary_eq, Option.getD_some]
  exact bufAppend_length_lt _ _ (bufAppend_length_lt _ _ h)

theorem finishReport_mceLines (sym : Nat → List Char) (hv : Bool) (nip msr : Nat)
    (f : Bool) (buf : List Char) (st : StackFrame) (c : CpuThread) :
    (finishReport sym hv nip msr f buf st c).mceLines = [] := by
  simp only [finishReport, resolutionOut_mceLines]

/-- Claim C8: for every input snapshot and every resolved symbol name of any
length, the diagnostic summary line built by exception_entry, and the line
built by print_recoverable_mce_vm, stay within the fixed buffer capacity
EXCEPTION_MAX_STR (320 bytes): the emitted string's length never reaches the
capacity (one slot is reserved for the terminator), with overlong content
silently truncated by the bounded writes. -/
theorem C8_diag_bounded (sym : Nat → List Char) (res : Resolvers) (cpu : CpuThread)
    (stack : StackFrame) (nip msr : Nat) :
    ((exception_entry sym res cpu stack).summary.getD []).length < EXCEPTION_MAX_STR ∧
    (∀ line ∈ (exception_entry sym res cpu stack).mceLines,
      line.length < EXCEPTION_MAX_STR) ∧
    (print_recoverable_mce_vm sym nip msr).length < EXCEPTION_MAX_STR := by
  refine ⟨?_, ?_, print_mce_length sym nip msr⟩
  · simp only [exception_entry]
    split_ifs <;>
      first
        | exact finishReport_summary_getD_length _ _ _ _ _ _ _ _ (bufAppend_nil_length _)
        | simp [resolutionOut_summary, EXCEPTION_MAX_STR]
  · simp only [exception_entry]
    split_ifs <;> intro line hline <;>
      first
        | (rw [finishReport_mceLines] at hline; exact absurd hline (List.not_mem_nil _))
        | (rw [resolutionOut_mceLines] at hline; exact absurd hline (List.not_mem_nil _))
        | (rw [resolutionOut_mceLines] at hline; rw [List.mem_singleton.1 hline];
           exact print_mce_length _ _ _)

/-- A machine-check frame that takes the degrade-and-retry path. -/
def stMce : StackFrame := { stZero with type := 0x200, srr1 := MSR_RI + MSR_IR }

theorem C8_diag_bounded_witness :
    (print_recoverable_mce_vm symLong stMce.srr0 stMce.srr1).length < EXCEPTION_MAX_STR ∧
    ((exception_entry symLong resTrue cpuVmOn stMce).summary.getD []).length <
      EXCEPTION_MAX_STR ∧
    ((exception_entry symLong resTrue cpuVmOn
      { stZero with type := 0x777, srr1 := MSR_RI }).summary.getD []).length <
      EXCEPTION_MAX_STR :=
  ⟨(C8_diag_bounded symLong resTrue cpuVmOn stMce stMce.srr0 stMce.srr1).2.1
      (print_recoverable_mce_vm symLong stMce.srr0 stMce.srr1)
      (by
        have hm : (exception_entry symLong resTrue cpuVmOn stMce).mceLines =
            [print_recoverable_mce_vm symLong stMce.srr0 stMce.srr1] := rfl
        rw [hm]
        exact List.mem_singleton_self _),
    (C8_diag_bounded symLong resTrue cpuVmOn stMce 0 0).1,
    (C8_diag_bounded symLong resTrue cpuVmOn
      { stZero with type := 0x777, srr1 := MSR_RI } 0 0).1⟩

theorem hexAux_length_le (f : Nat) :
    ∀ (n : Nat) (acc : List Char), (hexAux f n acc).length ≤ f + acc.length := by
  induction f with
  | zero =>
    intro n acc
    simp [hexAux]
  | succ f ih =>
    intro n acc
    by_cases h : n = 0
    · simp only [hexAux, if_pos h]
      omega
    · have hrec := ih (n / 16) (hexDigit (n % 16) :: acc)
      simp only [List.length_cons] at hrec
      simp only [hexAux, if_neg h]
      omega

theorem hexVar_length_le (n : Nat) : (hexVar n).length ≤ 64 := by
  by_cases h : n = 0
  · simp [hexVar, h]
  · have := hexAux_length_le 64 n []
    simpa [hexVar, h] using this

theorem bufAppend_extend (buf s : List Char) : ∃ t, bufAppend buf s = buf ++ t := by
  by_cases h : buf.length < EXCEPTION_MAX_STR
  · exact ⟨List.take (EXCEPTION_MAX_STR - buf.length - 1) s, by simp [bufAppend, h]⟩
  · exact ⟨[], by simp [bufAppend, h]⟩

theorem bufAppend_nil_prefix (h s : List Char) (hl : h.length ≤ EXCEPTION_MAX_STR - 1) :
    ∃ t, bufAppend [] (h ++ s) = h ++ t := by
  refine ⟨List.take (EXCEPTION_MAX_STR - 1 - h.length) s, ?_⟩
  have h0 : (0 : Nat) < EXCEPTION_MAX_STR := by decide
  simp only [bufAppend, List.length_nil, Nat.sub_zero, List.nil_append, h0, if_true]
  rw [List.take_append_eq_append_take, List.take_of_length_le hl]

/-- Claim C9: for every trap identifier outside the known enumeration (not
0x100, 0x200, 0x300, 0x380, 0x400, 0x480, and not one of the
hypervisor-delivered vectors), exception_entry emits a summary diagnostic
that starts with "Fatal Exception 0x" followed by the literal identifier
value, and always terminates, for every snapshot, whether or not the
recoverable-interrupt bit is set. -/
theorem C9_unknown_vector (sym : Nat → List Char) (res : Resolvers) (cpu : CpuThread)
    (stack : StackFrame)
    (h1 : stack.type ≠ 0x100) (h2 : stack.type ≠ 0x200) (h3 : stack.type ≠ 0x300)
    (h38 : stack.type ≠ 0x380) (h4 : stack.type ≠ 0x400) (h48 : stack.type ≠ 0x480)
    (hhv : isHV stack.type = false) :
    (exception_entry sym res cpu stack).verdict = Verdict.Fatal ∧
    ∃ rest, (exception_entry sym res cpu stack).summary =
      some ("Fatal Exception 0x".toList ++ hexVar stack.type ++ rest) := by
  have hrun : exception_entry sym res cpu stack =
      finishReport sym false (classifyNip stack) (classifyMsr stack) true
        (bufAppend []
          (("Fatal Exception 0x".toList ++ hexVar stack.type) ++
            (" at ".toList ++ hex16 (classifyNip stack) ++ "  ".toList)))
        stack cpu := by
    simp [exception_entry, h1, h2, h3, h38, h4, h48, hhv]
  have h18 : ("Fatal Exception 0x".toList).length = 18 := by decide
  have hE : EXCEPTION_MAX_STR = 320 := rfl
  have hb : ("Fatal Exception 0x".toList ++ hexVar stack.type).length ≤
      EXCEPTION_MAX_STR - 1 := by
    have hv64 := hexVar_length_le stack.type
    simp only [List.length_append, h18]
    omega
  obtain ⟨t0, ht0⟩ := bufAppend_nil_prefix
    ("Fatal Exception 0x".toList ++ hexVar stack.type)
    (" at ".toList ++ hex16 (classifyNip stack) ++ "  ".toList) hb
  obtain ⟨t1, ht1⟩ := bufAppend_extend
    (("Fatal Exception 0x".toList ++ hexVar stack.type) ++ t0) (sym (classifyNip stack))
  obtain ⟨t2, ht2⟩ := bufAppend_extend
    ((("Fatal Exception 0x".toList ++ hexVar stack.type) ++ t0) ++ t1)
    ("  MSR ".toList ++ hex16 (classifyMsr stack))
  constructor
  · rw [hrun]
    exact (finishReport_verdict_fatal_iff _ _ _ _ _ _ _ _).2 rfl
  · refine ⟨t0 ++ t1 ++ t2, ?_⟩
    rw [hrun, finishReport_summary_eq, ht0, ht1, ht2]
    simp [List.append_assoc]

theorem C9_unknown_vector_witness :
    ({ stZero with type := 0x777, srr1 := MSR_RI } : StackFrame).type ≠ 0x100 ∧
    isHV ({ stZero with type := 0x777, srr1 := MSR_RI } : StackFrame).type = false ∧
    ({ stZero with type := 0x777, srr1 := MSR_RI } : StackFrame).srr1 &&& MSR_RI ≠ 0 ∧
    (exception_entry symEmpty resTrue cpuVmOn
      { stZero with type := 0x777, srr1 := MSR_RI }).verdict = Verdict.Fatal ∧
    (∃ rest, (exception_entry symEmpty resTrue cpuVmOn
        { stZero with type := 0x777, srr1 := MSR_RI }).summary =
      some ("Fatal Exception 0x".toList ++
        hexVar ({ stZero with type := 0x777, srr1 := MSR_RI } : StackFrame).type ++ rest)) :=
  ⟨by decide, by decide, by decide,
    (C9_unknown_vector symEmpty resTrue cpuVmOn { stZero with type := 0x777, srr1 := MSR_RI }
      (by decide) (by decide) (by decide) (by decide) (by decide) (by decide) (by decide)).1,
    (C9_unknown_vector symEmpty resTrue cpuVmOn { stZero with type := 0x777, srr1 := MSR_RI }
      (by decide) (by decide) (by decide) (by decide) (by decide) (by decide) (by decide)).2⟩

end Skiboot
